import Mathlib

/-!
Shallow embedding of the polling-schedule and change/threshold-detection
engine of `pybotz.py` (classes `SensorReading`, `SensorChecker`,
`SensorModuleChecker`), faithful to Python 2 runtime semantics.

Conventions of the embedding:
* `datetime` values and `timedelta` values are modelled as `Int`
  microseconds (CPython's `datetime`/`timedelta` are exact integer
  microsecond counts, so this is lossless).
* Python `float` values are modelled as `Rat`.  Every numeric literal the
  claims exercise compares the same way under `Rat` as under IEEE double,
  and the source performs no float operation whose rounding could change
  a comparison at the inputs considered here.
* Python `int` counters are modelled as `Nat` (they are only ever
  incremented from 0 in the source).
* Code that can raise an uncaught exception is modelled in
  `Except String`.
-/

namespace Pybotz

instance {ε α : Type} [DecidableEq ε] [DecidableEq α] : DecidableEq (Except ε α) :=
  fun a b =>
    match a, b with
    | .ok x, .ok y =>
      if h : x = y then .isTrue (by rw [h])
      else .isFalse (by intro hc; cases hc; exact h rfl)
    | .error x, .error y =>
      if h : x = y then .isTrue (by rw [h])
      else .isFalse (by intro hc; cases hc; exact h rfl)
    | .ok _, .error _ => .isFalse (by intro hc; cases hc)
    | .error _, .ok _ => .isFalse (by intro hc; cases hc)

/-- Module-global `config['default_interval']`: 10 * 60 seconds, in
microseconds (`timedelta(0, interval)` stores seconds; we keep everything
in microseconds). -/
def config_default_interval : Int := 10 * 60 * 1000000

/-- Module-global `config['default_threshold'] = 0.50`. -/
def config_default_threshold : Rat := 1 / 2

/-- Module-global `config['self_report_interval']`: 15 * 60 seconds, in
microseconds. -/
def config_self_report_interval : Int := 15 * 60 * 1000000

/-- A Python 2 value as stored in `SensorReading._sensor_value` and as
returned by `SensorReading.value()`: an `int`, a `float`, or a `str`.
(`load_from_HTML` stores either a string scraped from the page or the
ints 0/1 from the binary remapping; `set()` stores whatever it is given.) -/
inductive PyVal where
  | int : Int → PyVal
  | float : Rat → PyVal
  | str : String → PyVal
deriving DecidableEq

/-- Python 2 `==` on the values above: `int` and `float` cross-compare
numerically; a number and a string are never equal; strings compare as
strings. -/
def py_eq : PyVal → PyVal → Bool
  | .int a, .int b => a == b
  | .int a, .float b => (a : Rat) == b
  | .float a, .int b => a == (b : Rat)
  | .float a, .float b => a == b
  | .str a, .str b => a == b
  | _, _ => false

/-- Python 2 `<` on the values above.  Numbers compare numerically;
in CPython 2's default mixed-type comparison any number sorts below any
string (numeric types are given the empty type name); strings compare
lexicographically. -/
def py_lt : PyVal → PyVal → Bool
  | .int a, .int b => decide (a < b)
  | .int a, .float b => decide ((a : Rat) < b)
  | .float a, .int b => decide (a < (b : Rat))
  | .float a, .float b => decide (a < b)
  | .str a, .str b => decide (a < b)
  | .str _, _ => false
  | _, .str _ => true

/-- Python 2 `>`: total order, so `a > b` is `b < a`. -/
def py_gt (a b : PyVal) : Bool := py_lt b a

/-- Python 2 multiplication of a reading value by the alert threshold
(`self._current_reading.value() * self._alert_threshold`).  The threshold
is a `float` (the 0.50 default) or a MySQL `Decimal`; multiplying a `str`
by either raises `TypeError`.  For numeric values the product is the
exact numeric product. -/
def py_mul_threshold : PyVal → Rat → Except String PyVal
  | .int a, t => .ok (.float (a * t))
  | .float a, t => .ok (.float (a * t))
  | .str _, _ => .error "TypeError: cannot multiply sequence by non-int"

/-- Python 2 `+` between two reading values: numeric addition when both
sides are numeric, string concatenation when both are strings, otherwise
`TypeError`. -/
def py_add_val : PyVal → PyVal → Except String PyVal
  | .int a, .int b => .ok (.int (a + b))
  | .int a, .float b => .ok (.float (a + b))
  | .float a, .int b => .ok (.float (a + b))
  | .float a, .float b => .ok (.float (a + b))
  | .str a, .str b => .ok (.str (a ++ b))
  | _, _ => .error "TypeError: unsupported operand types for +"

/-- Python 2 `-` between two reading values: numeric only. -/
def py_sub_val : PyVal → PyVal → Except String PyVal
  | .int a, .int b => .ok (.int (a - b))
  | .int a, .float b => .ok (.float (a - b))
  | .float a, .int b => .ok (.float (a - b))
  | .float a, .float b => .ok (.float (a - b))
  | _, _ => .error "TypeError: unsupported operand types for -"

/-- Value of a digit string, most significant digit first. -/
def digitsToNat (ds : List Char) : Nat :=
  ds.foldl (fun n c => 10 * n + (c.toNat - 48)) 0

/-- Python 2 `int(s)` on the strings stored in readings: an optional
sign followed by one or more digits.  (Python also strips surrounding
whitespace, but `load_from_HTML` has already replaced every space by an
underscore, so no stored value carries whitespace.) -/
def str_to_int? (s : String) : Option Int :=
  match s.toList with
  | [] => none
  | '-' :: ds =>
    if !ds.isEmpty && ds.all Char.isDigit then some (-(digitsToNat ds : Int))
    else none
  | '+' :: ds =>
    if !ds.isEmpty && ds.all Char.isDigit then some (digitsToNat ds : Int)
    else none
  | ds =>
    if ds.all Char.isDigit then some (digitsToNat ds : Int) else none

/-- Unsigned part of Python 2 `float(s)`: digits with at most one
decimal point and at least one digit overall. -/
def parse_float_chars (cs : List Char) : Option Rat :=
  let ip := cs.takeWhile Char.isDigit
  match cs.dropWhile Char.isDigit with
  | [] => if ip.isEmpty then none else some ((digitsToNat ip : Nat) : Rat)
  | '.' :: fp =>
    if (!ip.isEmpty || !fp.isEmpty) && fp.all Char.isDigit then
      some (((digitsToNat ip : Nat) : Rat) +
        ((digitsToNat fp : Nat) : Rat) / ((10 : Rat) ^ fp.length))
    else none
  | _ => none

/-- Python 2 `float(s)` on the strings the scraper can produce: an
optional sign, then digits with at most one decimal point and at least
one digit (the numeric fields scraped by `load_from_HTML` match the
regex digits, optional dot, digits).  Exponent and infinity forms are
not modelled; no string the program can feed here uses them. -/
def str_to_float? (s : String) : Option Rat :=
  match s.toList with
  | '-' :: cs => (parse_float_chars cs).map (fun q => -q)
  | '+' :: cs => parse_float_chars cs
  | cs => parse_float_chars cs

/-- A `SensorReading` as the scheduling core sees it: timestamp `ts`,
key `_sensor_key`, and the stored `_sensor_value`.  The optional
`_display_prefix` only decorates output names and the optional
`_sensor_condition` is only used by `__str__`; neither influences any
scheduling decision, and the self-report readings carry a `scope_tag`
standing for the `display_name + "-"` prefix they are built with. -/
structure SensorReading where
  ts : Int
  key : String
  raw : PyVal
  scope_tag : Option String := none
deriving DecidableEq

/-- `SensorReading.value()`: a stored `float` is returned as is;
otherwise `int(...)` is tried (an `int` stays an `int`, a string of an
integer parses), then `float(...)`, and a string that parses as neither
is returned unchanged. -/
def SensorReading.value (r : SensorReading) : PyVal :=
  match r.raw with
  | .float q => .float q
  | .int n => .int n
  | .str s =>
    match str_to_int? s with
    | some n => .int n
    | none =>
      match str_to_float? s with
      | some q => .float q
      | none => .str s

/-- Does `re.match(r"N\/A", str(v))` succeed, i.e. does the Python
string form of the value start with "N/A"?  `str()` of an `int` or a
`float` consists of digits, sign, dot and exponent characters, so only
string values can match. -/
def na_sentinel : PyVal → Bool
  | .str s => "N/A".toList.isPrefixOf s.toList
  | _ => false

/-- State of one `SensorChecker`: the sensor name, the poll interval
(`timedelta`, microseconds), the alert threshold (numeric: the float
0.50 default or the DB value), the mutable `_next_check_time`, and the
current/previous readings.  The database handle and id are only used at
construction and are not part of the runtime state. -/
structure SensorChecker where
  sensor_name : String
  poll_interval : Int
  alert_threshold : Rat
  next_check_time : Int
  current_reading : Option SensorReading
  previous_reading : Option SensorReading
deriving DecidableEq

/-- `SensorChecker.__init__`: `_next_check_time = datetime.now()` (the
construction instant), `_poll_interval = timedelta(0, interval)` with the
config default when the DB column is NULL, `_alert_threshold` likewise,
and no readings yet. -/
def SensorChecker.init (name : String) (now : Int)
    (interval : Option Int) (threshold : Option Rat) : SensorChecker :=
  { sensor_name := name
    poll_interval := interval.getD config_default_interval
    alert_threshold := threshold.getD config_default_threshold
    next_check_time := now
    current_reading := none
    previous_reading := none }

/-- Python 2 `==` between a `timedelta` and an `int`
(`self._poll_interval == 0` in `needs_check`): `timedelta`'s rich
comparison returns `NotImplemented` for a non-`timedelta` operand and
Python 2's default fallback compares the two by type, so the result is
always `False`, whatever the operands. -/
def timedelta_eq_int (_t : Int) (_n : Int) : Bool := false

/-- `SensorChecker.needs_check()`: `True` when
`(self._poll_interval == 0) or (datetime.now() > self._next_check_time)`,
and the implicit falsy `None` otherwise, modelled as `false` (the only
caller uses the result in a boolean context). -/
def SensorChecker.needs_check (sc : SensorChecker) (now : Int) : Bool :=
  timedelta_eq_int sc.poll_interval 0 || decide (now > sc.next_check_time)

/-- `SensorChecker.exceeds_threshold(new_reading)`:
`False` when the threshold is 0; `True` on the first pass (no current
reading); `False` when `str(new_reading.value())` matches "N/A"; then
`True` when the new value compares above
`current + current * threshold` or below
`current - current * threshold` under Python 2 comparison, and the
implicit falsy `None` otherwise, modelled as `false`.  The arithmetic on
the current value can raise `TypeError` (a string current value times
the float threshold), hence the `Except`. -/
def SensorChecker.exceeds_threshold (sc : SensorChecker)
    (new_reading : SensorReading) : Except String Bool :=
  if sc.alert_threshold = 0 then .ok false
  else
    match sc.current_reading with
    | none => .ok true
    | some cur =>
      if na_sentinel new_reading.value then .ok false
      else
        match py_mul_threshold cur.value sc.alert_threshold with
        | .error e => .error e
        | .ok scaled =>
          match py_add_val cur.value scaled, py_sub_val cur.value scaled with
          | .error e, _ => .error e
          | .ok _, .error e => .error e
          | .ok hi, .ok lo =>
            .ok (py_gt new_reading.value hi || py_lt new_reading.value lo)

/-- `SensorChecker.update(new_reading)`: shifts current to previous,
installs the new reading, and advances `_next_check_time` by
`_poll_interval` from its own prior value (deliberately not from the
current time; see the source's Important Note). -/
def SensorChecker.update (sc : SensorChecker) (new_reading : SensorReading) :
    SensorChecker :=
  { sc with
    previous_reading := sc.current_reading
    current_reading := some new_reading
    next_check_time := sc.next_check_time + sc.poll_interval }

/-- `SensorChecker.get_data_update()`: returns the current reading when
there is no previous reading or when the two `value()`s differ under
Python `!=`; otherwise falls through to `None`.  (The source calls this
only right after `update`, so a state with a previous reading but no
current one never occurs; it is mapped to `none` here.) -/
def SensorChecker.get_data_update (sc : SensorChecker) : Option SensorReading :=
  match sc.previous_reading, sc.current_reading with
  | none, cur => cur
  | some prev, some cur => if py_eq cur.value prev.value then none else some cur
  | some _, none => none

/-- State of one `SensorModuleChecker`: the display name, the owned
`SensorChecker`s in database order, the self-report interval
(`timedelta`, microseconds), and the running statistics
`_avg_poll_time` (`timedelta`, microseconds), `_poll_failure_count`,
`_poll_success_count` and `_next_self_report`.  The host, module name,
URL, database fields and the transient `_html`/`_html_ts` buffers do not
influence the scheduling semantics modelled here. -/
structure SensorModuleChecker where
  display_name : String
  sensors : List SensorChecker
  self_report_interval : Int
  avg_poll_time : Option Int
  poll_failure_count : Nat
  poll_success_count : Nat
  next_self_report : Int
deriving DecidableEq

/-- `SensorModuleChecker._init_selfrpt_interval()`: clears the running
average and both counters and sets `_next_self_report` to the current
time plus the self-report interval. -/
def init_selfrpt_interval (smc : SensorModuleChecker) (now : Int) :
    SensorModuleChecker :=
  { smc with
    avg_poll_time := none
    poll_failure_count := 0
    poll_success_count := 0
    next_self_report := now + smc.self_report_interval }

/-- `SensorModuleChecker.__init__`: stores the display name, builds the
sensors (passed in here, already constructed), sets
`self_report_interval` from the module config, and calls
`_init_selfrpt_interval()`; `now` is the construction instant. -/
def SensorModuleChecker.construct (dn : String) (sensors : List SensorChecker)
    (now : Int) : SensorModuleChecker :=
  init_selfrpt_interval
    { display_name := dn
      sensors := sensors
      self_report_interval := config_self_report_interval
      avg_poll_time := none
      poll_failure_count := 0
      poll_success_count := 0
      next_self_report := 0 } now

/-- `SensorModuleChecker._record_poll_run(start, end)`: increments the
success counter, then sets the running average to the duration on the
first success and to `(avg + duration) / new_count` afterwards.
Python 2 divides a `timedelta` by an `int` with floor division on the
microsecond count, hence `Int.fdiv`. -/
def record_poll_run (smc : SensorModuleChecker) (start_t end_t : Int) :
    SensorModuleChecker :=
  let n := smc.poll_success_count + 1
  { smc with
    poll_success_count := n
    avg_poll_time := some (match smc.avg_poll_time with
      | none => end_t - start_t
      | some avg => Int.fdiv (avg + (end_t - start_t)) (n : Int)) }

/-- `SensorModuleChecker.avg_poll_time()`: `total_seconds()` of the
average `timedelta`, i.e. the microsecond count over 10^6 as an exact
fraction. -/
def avg_poll_time_secs (td_us : Int) : Rat := (td_us : Rat) / 1000000

/-- `SensorModuleChecker._self_report()`: when at least one poll was
attempted, emits a `poll_failure_rate` reading whose value is
`float(self._poll_failure_count / total)` — Python 2 floor division of
the two `int` counters, only then converted to `float`; when at least
one poll succeeded, emits an `avg_html_retrieval` reading carrying
`avg_poll_time()` in seconds.  Both are built with the
`display_name + "-"` prefix and the current time, and the counters and
interval timer are then reset via `_init_selfrpt_interval()`.  (The
`getD 0` is unreachable: the average is present whenever the success
count is positive.) -/
def self_report (smc : SensorModuleChecker) (now : Int) :
    List SensorReading × SensorModuleChecker :=
  let total := smc.poll_success_count + smc.poll_failure_count
  let rate_part : List SensorReading :=
    if total > 0 then
      [{ ts := now
         key := "poll_failure_rate"
         raw := .float ((smc.poll_failure_count / total : Nat) : Rat)
         scope_tag := some (smc.display_name ++ "-") }]
    else []
  let avg_part : List SensorReading :=
    if smc.poll_success_count > 0 then
      [{ ts := now
         key := "avg_html_retrieval"
         raw := .float (avg_poll_time_secs (smc.avg_poll_time.getD 0))
         scope_tag := some (smc.display_name ++ "-") }]
    else []
  (rate_part ++ avg_part, init_selfrpt_interval smc now)

/-- Outcome of `_retrieve_HTML()` as seen by `check()`: either a
transport failure (`urllib2.URLError`, caught, or the alarm-driven read
timeout, caught), or a successful fetch whose HTML parses into a list
of per-row readings (rows whose parse raises `AttributeError` are
skipped by `check()` and are simply absent from this list). -/
inductive FetchResult where
  | failure : FetchResult
  | success : List SensorReading → FetchResult
deriving DecidableEq

/-- One call to `SensorModuleChecker.check()` with the times read from
the wall clock during it: `start_t`/`end_t` bracket the fetch
(`end_t` is `_html_ts`), and `now` is the `datetime.now()` of the
self-report comparison. -/
structure Sweep where
  fetch : FetchResult
  start_t : Int
  end_t : Int
  now : Int
deriving DecidableEq

/-- The `sensorReadings` dict built in `check()`: keyed by `r.key()`,
filled in row order so a later duplicate key overwrites an earlier one —
lookup returns the last row carrying the key. -/
def snapshot_get (rows : List SensorReading) (k : String) :
    Option SensorReading :=
  rows.reverse.find? (fun r => r.key == k)

/-- The per-sensor body of the loop in `check()`: a sensor whose name is
not in the dict is skipped; otherwise
`s.needs_check() or s.exceeds_threshold(...)` is evaluated with Python's
short-circuit (the threshold test, which can raise, only runs when the
sensor is not due), and when it holds the sensor is updated and
`get_data_update()` collected. -/
def sweep_sensor (now : Int) (rows : List SensorReading)
    (s : SensorChecker) : Except String (SensorChecker × Option SensorReading) :=
  match snapshot_get rows s.sensor_name with
  | none => .ok (s, none)
  | some r =>
    match (if s.needs_check now then .ok true else s.exceeds_threshold r :
        Except String Bool) with
    | .error e => .error e
    | .ok worth =>
      if worth then
        let s1 := s.update r
        .ok (s1, s1.get_data_update)
      else
        .ok (s, none)

/-- The full sensor loop of `check()`: each sensor is processed in
order, alerts are appended in loop order, and an uncaught exception
aborts the whole call (the partially mutated state is unobservable to
the caller, which sees only the exception). -/
def sweep_sensors (now : Int) (rows : List SensorReading) :
    List SensorChecker → Except String (List SensorChecker × List SensorReading)
  | [] => .ok ([], [])
  | s :: rest =>
    match sweep_sensor now rows s with
    | .error e => .error e
    | .ok (s1, alert) =>
      match sweep_sensors now rows rest with
      | .error e => .error e
      | .ok (rest1, alerts) => .ok (s1 :: rest1, alert.toList ++ alerts)

/-- `SensorModuleChecker.check()`.  On a fetch failure `_retrieve_HTML`
increments the failure counter and leaves `_html = None`, and `check()`
prints and returns the still-empty alert list at once — the self-report
block further down is not reached.  On success the poll run is
recorded, the snapshot is demultiplexed and swept, and then, only on
this path, a self-report is appended when `now > _next_self_report`. -/
def SensorModuleChecker.check (smc : SensorModuleChecker) (sw : Sweep) :
    Except String (List SensorReading × SensorModuleChecker) :=
  match sw.fetch with
  | .failure =>
    .ok ([], { smc with poll_failure_count := smc.poll_failure_count + 1 })
  | .success rows =>
    let smc1 := record_poll_run smc sw.start_t sw.end_t
    match sweep_sensors sw.now rows smc1.sensors with
    | .error e => .error e
    | .ok (sensors1, alerts) =>
      let smc2 := { smc1 with sensors := sensors1 }
      if sw.now > smc2.next_self_report then
        let (rpt, smc3) := self_report smc2 sw.now
        .ok (alerts ++ rpt, smc3)
      else
        .ok (alerts, smc2)

/-- A sequence of `check()` calls on one module, concatenating the
returned readings; an exception in any sweep propagates. -/
def run_sweeps : SensorModuleChecker → List Sweep →
    Except String (List SensorReading × SensorModuleChecker)
  | smc, [] => .ok ([], smc)
  | smc, sw :: rest =>
    match smc.check sw with
    | .error e => .error e
    | .ok (out, smc1) =>
      match run_sweeps smc1 rest with
      | .error e => .error e
      | .ok (outs, smc2) => .ok (out ++ outs, smc2)

/-- The parsed rows a sweep's snapshot contributes (none on a failed
fetch). -/
def sweep_rows (sw : Sweep) : List SensorReading :=
  match sw.fetch with
  | .failure => []
  | .success rows => rows

/-! Concrete states used to exercise the definitions. -/

/-- A freshly constructed module with no sensors, built at time 0. -/
def fresh_module : SensorModuleChecker := SensorModuleChecker.construct "m" [] 0

/-- A module mid-interval: one successful poll already recorded and the
self-report deadline already in the past (`next_self_report = 0`). -/
def smcC1 : SensorModuleChecker :=
  { fresh_module with poll_success_count := 1, next_self_report := 0 }

/-- Claim C1, as stated, is false on the code: with one prior success, a
failed fetch at time 100 — past the self-report deadline 0, so the claim
demands the self-report readings in the output — makes `check()` return the
empty list (it returns before the self-report block), merely bumping the
failure counter; had the self-report step run, it would have produced a
nonempty list. -/
theorem C1_counterexample :
    (100 : Int) > smcC1.next_self_report ∧
    smcC1.check { fetch := .failure, start_t := 0, end_t := 0, now := 100 }
      = .ok ([], { smcC1 with poll_failure_count := 1 }) ∧
    (self_report { smcC1 with poll_failure_count := 1 } 100).1 ≠ [] := by
  refine ⟨by decide, rfl, by decide⟩

/-- Claim C1 (amended): on a sweep whose snapshot retrieval fails with a
transport error or timeout, `check()` increments the failure counter by
exactly 1, leaves every sensor schedule and all other module state unchanged,
and returns the empty reading list at once — the self-report step is skipped
on a failed sweep, so no self-report readings are emitted even when
`now > next_self_report`. -/
theorem C1_failure_sweep (smc : SensorModuleChecker) (s e n : Int) :
    smc.check { fetch := .failure, start_t := s, end_t := e, now := n }
      = .ok ([], { smc with poll_failure_count := smc.poll_failure_count + 1 }) :=
  rfl

/-- A module that recorded 1 failure and 2 successes (average 10 s). -/
def smcC2 : SensorModuleChecker :=
  { fresh_module with
    poll_failure_count := 1
    poll_success_count := 2
    avg_poll_time := some 10000000 }

/-- Claim C2: with 1 failure and 2 successes the emitted `poll_failure_rate`
value is `float(1 / 3)` where `1 / 3` is Python 2 integer division of the two
`int` counters, i.e. `float(0) = 0.0` — not the fraction 1/3 the claim (and
the `float(...)` wrapper's visible intent) calls for. -/
theorem C2_integer_division :
    ((self_report smcC2 0).1.map SensorReading.raw)
      = [.float 0, .float 10] ∧
    (0 : Rat) ≠ 1 / 3 := by
  constructor
  · simp only [self_report, smcC2, fresh_module, SensorModuleChecker.construct,
      init_selfrpt_interval, avg_poll_time_secs]
    norm_num
  · norm_num

/-- A sensor whose current reading has numeric value 100, with
`alert_threshold = 0.5`. -/
def scC3 : SensorChecker :=
  { sensor_name := "Temperature"
    poll_interval := config_default_interval
    alert_threshold := 1 / 2
    next_check_time := 0
    current_reading := some { ts := 0, key := "Temperature", raw := .int 100 }
    previous_reading := none }

/-- A candidate Temperature reading carrying the given value. -/
def tempR (v : PyVal) : SensorReading := { ts := 1, key := "Temperature", raw := v }

/-- Claim C3, as stated, is false on the code: with current value 100 and
threshold 0.5 the comparisons are strict, so a candidate of exactly 50
(= 100 * (1 − 0.5)) does NOT exceed the threshold — the fall-through returns
the falsy None — while 49.9 DOES; the claim has this boundary backwards. -/
theorem C3_counterexample :
    scC3.exceeds_threshold (tempR (.int 50)) = .ok false ∧
    scC3.exceeds_threshold (tempR (.float (499 / 10))) = .ok true := by
  constructor
  · simp only [SensorChecker.exceeds_threshold, scC3, tempR, SensorReading.value,
      na_sentinel, py_mul_threshold, py_add_val, py_sub_val, py_gt, py_lt]
    norm_num
  · simp only [SensorChecker.exceeds_threshold, scC3, tempR, SensorReading.value,
      na_sentinel, py_mul_threshold, py_add_val, py_sub_val, py_gt, py_lt]
    norm_num

/-- Claim C3 (amended): for numeric candidate and current values with the
threshold nonzero (and the candidate not the sentinel), the result is true
iff candidate > current * (1 + t) or candidate < current * (1 − t), with both
inequalities strict; hence with current 100 and threshold 0.5 the candidates
149 and 50 do not exceed the threshold while 151 and 49.9 do. -/
theorem C3_amended (name k1 k2 : String) (pi nct ts1 ts2 : Int)
    (p1 p2 : Option String) (prev : Option SensorReading) (cv nv t : Rat)
    (ht : t ≠ 0) :
    SensorChecker.exceeds_threshold
        { sensor_name := name, poll_interval := pi, alert_threshold := t,
          next_check_time := nct,
          current_reading :=
            some { ts := ts1, key := k1, raw := .float cv, scope_tag := p1 },
          previous_reading := prev }
        { ts := ts2, key := k2, raw := .float nv, scope_tag := p2 }
      = .ok (decide (nv > cv * (1 + t)) || decide (nv < cv * (1 - t))) ∧
    scC3.exceeds_threshold (tempR (.int 149)) = .ok false ∧
    scC3.exceeds_threshold (tempR (.int 151)) = .ok true ∧
    scC3.exceeds_threshold (tempR (.int 50)) = .ok false ∧
    scC3.exceeds_threshold (tempR (.float (499 / 10))) = .ok true := by
  refine ⟨?_, ?_, ?_, ?_, ?_⟩
  case _ =>
    have h1 : SensorChecker.exceeds_threshold
        { sensor_name := name, poll_interval := pi, alert_threshold := t,
          next_check_time := nct,
          current_reading :=
            some { ts := ts1, key := k1, raw := .float cv, scope_tag := p1 },
          previous_reading := prev }
        { ts := ts2, key := k2, raw := .float nv, scope_tag := p2 }
        = .ok (decide (cv + cv * t < nv) || decide (nv < cv - cv * t)) := by
      unfold SensorChecker.exceeds_threshold
      rw [if_neg ht]
      rfl
    have hx : cv * (1 + t) = cv + cv * t := by ring
    have hy : cv * (1 - t) = cv - cv * t := by ring
    have e1 : decide (nv > cv * (1 + t)) = decide (cv + cv * t < nv) :=
      decide_eq_decide.mpr (by rw [gt_iff_lt, hx])
    have e2 : decide (nv < cv * (1 - t)) = decide (nv < cv - cv * t) :=
      decide_eq_decide.mpr (by rw [hy])
    rw [h1, e1, e2]
  all_goals
    simp only [SensorChecker.exceeds_threshold, scC3, tempR, SensorReading.value,
      na_sentinel, py_mul_threshold, py_add_val, py_sub_val, py_gt, py_lt]
    norm_num

/-- Witness for C3 at current value 100, threshold 0.5, candidate 151. -/
theorem C3_amended_witness :
    ((1 : Rat) / 2 ≠ 0) ∧
    SensorChecker.exceeds_threshold
        { sensor_name := "Temperature", poll_interval := 0, alert_threshold := 1 / 2,
          next_check_time := 0,
          current_reading :=
            some { ts := 0, key := "Temperature", raw := .float 100, scope_tag := none },
          previous_reading := none }
        { ts := 1, key := "Temperature", raw := .float 151, scope_tag := none }
      = .ok (decide ((151 : Rat) > 100 * (1 + 1 / 2))
          || decide ((151 : Rat) < 100 * (1 - 1 / 2))) := by
  refine ⟨by norm_num, ?_⟩
  exact (C3_amended "Temperature" "Temperature" "Temperature" 0 0 0 1 none none
    none 100 151 (1 / 2) (by norm_num)).1

/-- A sensor constructed at time 100 with `poll_interval = 0`. -/
def scC4 : SensorChecker := SensorChecker.init "Door" 100 (some 0) (some (1 / 2))

/-- Claim C4: the zero-interval branch of `needs_check` is dead code in
Python 2 — `self._poll_interval` is always a `timedelta` and
`timedelta == 0` is always `False` — so `needs_check` reduces to
`now > next_check_time` for every sensor; in particular a sensor constructed
with `poll_interval = 0` and polled within the same clock microsecond
(`now = next_check_time = 100`) is NOT due, contradicting the claim (and the
code's own schema comment that interval 0 means check on every poll). -/
theorem C4_zero_interval_branch_dead :
    (∀ (sc : SensorChecker) (now : Int),
        sc.needs_check now = decide (now > sc.next_check_time)) ∧
    scC4.poll_interval = 0 ∧
    scC4.needs_check 100 = false :=
  ⟨fun _ _ => rfl, rfl, rfl⟩

/-- A sensor whose current reading stores the text "1". -/
def scC5pre : SensorChecker :=
  { sensor_name := "Door"
    poll_interval := config_default_interval
    alert_threshold := 1 / 2
    next_check_time := 0
    current_reading := some { ts := 0, key := "Door", raw := .str "1" }
    previous_reading := none }

/-- Claim C5, as stated, is false on the code: accepting the numeric reading
1 on top of a current reading holding the text "1" yields NO pending alert —
`value()` coerces the stored text "1" to the int 1, so the two compare equal —
whereas the claim says a value differing only in type (number 1 vs text "1")
is treated as a change. -/
theorem C5_counterexample :
    (scC5pre.update { ts := 1, key := "Door", raw := .int 1 }).get_data_update
      = none ∧
    SensorReading.value { ts := 0, key := "Door", raw := .str "1" } = .int 1 :=
  ⟨by decide, by decide⟩

/-- Claim C5 (amended): after accept, pendingAlert returns nothing exactly
when a previousReading exists and the current and previous readings have
equal `value()`s under Python equality, where `value()` re-parses stored
text (int first, then float); the number 1 and the text "1" therefore coerce
to the same typed value and count as unchanged, and with no previousReading
the current reading is always returned. -/
theorem C5_amended (sc : SensorChecker) (p c r : SensorReading) :
    (SensorChecker.get_data_update
        { sc with previous_reading := some p, current_reading := some c }
      = if py_eq c.value p.value then none else some c) ∧
    (SensorChecker.get_data_update
        { sc with previous_reading := none, current_reading := some r }
      = some r) ∧
    SensorReading.value { ts := 0, key := "Door", raw := .str "1" } = .int 1 :=
  ⟨rfl, rfl, by decide⟩

/-- A sensor configured with `alert_threshold = 0` and nothing read yet. -/
def scC6 : SensorChecker :=
  { sensor_name := "Door"
    poll_interval := 0
    alert_threshold := 0
    next_check_time := 0
    current_reading := none
    previous_reading := none }

/-- Claim C6, as stated, is false on the code: for a sensor configured with
`alertThreshold = 0` the very first candidate does NOT satisfy
`exceeds_threshold` — the threshold-zero test precedes the first-pass test. -/
theorem C6_counterexample :
    scC6.current_reading = none ∧
    scC6.exceeds_threshold { ts := 1, key := "Door", raw := .int 7 }
      = .ok false :=
  ⟨rfl, rfl⟩

/-- Claim C6 (amended): in the initial state (no currentReading) the first
candidate satisfies `exceeds_threshold` provided the alert threshold is
nonzero — with threshold 0 the zero test fires first and the result is false —
and for every configuration, accepting the first reading makes pendingAlert
return it. -/
theorem C6_amended (sc : SensorChecker) (t : Rat) (ht : t ≠ 0)
    (r : SensorReading) :
    SensorChecker.exceeds_threshold
        { sc with alert_threshold := t, current_reading := none } r
      = .ok true ∧
    SensorChecker.get_data_update
        (SensorChecker.update { sc with current_reading := none } r)
      = some r := by
  constructor
  · unfold SensorChecker.exceeds_threshold
    rw [if_neg ht]
  · rfl

/-- Witness for C6 at a concrete configuration. -/
theorem C6_amended_witness :
    ((1 : Rat) / 2 ≠ 0) ∧
    (SensorChecker.exceeds_threshold
        { scC6 with alert_threshold := 1 / 2, current_reading := none }
        { ts := 1, key := "Door", raw := .int 7 }
      = .ok true ∧
    SensorChecker.get_data_update
        (SensorChecker.update { scC6 with current_reading := none }
          { ts := 1, key := "Door", raw := .int 7 })
      = some { ts := 1, key := "Door", raw := .int 7 }) :=
  ⟨by norm_num, C6_amended scC6 (1 / 2) (by norm_num) _⟩

/-- A sensor with numeric current reading 100 and threshold 0.5, used to
probe what non-numeric candidates reach. -/
def scC7 : SensorChecker :=
  { sensor_name := "Temperature"
    poll_interval := config_default_interval
    alert_threshold := 1 / 2
    next_check_time := 0
    current_reading := some { ts := 0, key := "Temperature", raw := .int 100 }
    previous_reading := none }

/-- A sensor whose current reading holds the accepted sentinel text "N/A". -/
def scC7na : SensorChecker :=
  { scC7 with
    current_reading := some { ts := 0, key := "Temperature", raw := .str "N/A" } }

/-- Claim C7, as stated, is false on the code.  With current reading 100 and
threshold 0.5, the non-numeric candidate "Error" is not rejected — only
values whose string form starts with "N/A" are — and it reaches the
comparison branch, where Python 2's mixed-type ordering places every string
above every number, so exceeds_threshold returns True; moreover a previously
accepted "N/A" current reading reaches the threshold multiplication and
raises an uncaught TypeError on a numeric candidate. -/
theorem C7_counterexample :
    scC7.exceeds_threshold
        { ts := 1, key := "Temperature", raw := .str "Error" } = .ok true ∧
    scC7na.exceeds_threshold
        { ts := 1, key := "Temperature", raw := .int 72 }
      = .error "TypeError: cannot multiply sequence by non-int" := by
  have h1 : str_to_int? "Error" = none := by decide
  have h2 : str_to_float? "Error" = none := by decide
  have h3 : str_to_int? "N/A" = none := by decide
  have h4 : str_to_float? "N/A" = none := by decide
  have h5 : (['N', '/', 'A'].isPrefixOf "Error".data) = false := by decide
  constructor
  · simp only [SensorChecker.exceeds_threshold, scC7, SensorReading.value, h1,
      h2, h5, na_sentinel, py_mul_threshold, py_add_val, py_sub_val, py_gt, py_lt]
    norm_num
    decide
  · simp only [SensorChecker.exceeds_threshold, scC7na, scC7, SensorReading.value,
      h3, h4, na_sentinel, py_mul_threshold]
    norm_num

/-- Claim C7 (amended): only a candidate whose coerced value is a string
starting with "N/A" is rejected ahead of the comparison.  Any other string
candidate that does not parse as a number reaches the comparison branch,
where Python 2's mixed-type ordering places every string above every number,
so against a numeric current reading the result is true; and a non-numeric
string installed as the current reading reaches the threshold multiplication,
which raises TypeError. -/
theorem C7_amended (sc : SensorChecker) (t cv : Rat) (ht : t ≠ 0)
    (ts1 ts2 : Int) (k1 k2 : String) (p1 p2 : Option String)
    (s : String) (hs1 : str_to_int? s = none) (hs2 : str_to_float? s = none)
    (hs3 : "N/A".toList.isPrefixOf s.toList = false)
    (s2 : String) (h21 : str_to_int? s2 = none) (h22 : str_to_float? s2 = none) :
    SensorChecker.exceeds_threshold
        { sc with
            alert_threshold := t,
            current_reading :=
              some { ts := ts1, key := k1, raw := .float cv, scope_tag := p1 } }
        { ts := ts2, key := k2, raw := .str s, scope_tag := p2 }
      = .ok true ∧
    SensorChecker.exceeds_threshold
        { sc with
            alert_threshold := t,
            current_reading :=
              some { ts := ts1, key := k1, raw := .str s2, scope_tag := p1 } }
        { ts := ts2, key := k2, raw := .float cv, scope_tag := p2 }
      = .error "TypeError: cannot multiply sequence by non-int" := by
  constructor
  · unfold SensorChecker.exceeds_threshold
    rw [if_neg ht]
    simp only [SensorReading.value, hs1, hs2, na_sentinel, hs3,
      py_mul_threshold, py_add_val, py_sub_val, py_gt, py_lt]
    rfl
  · unfold SensorChecker.exceeds_threshold
    rw [if_neg ht]
    simp only [SensorReading.value, h21, h22, na_sentinel, py_mul_threshold]
    rfl

/-- Witness for C7 with candidate "Error" and current sentinel "N/A". -/
theorem C7_amended_witness :
    ((1 : Rat) / 2 ≠ 0 ∧ str_to_int? "Error" = none ∧
      str_to_float? "Error" = none ∧
      "N/A".toList.isPrefixOf "Error".toList = false ∧
      str_to_int? "N/A" = none ∧ str_to_float? "N/A" = none) ∧
    (SensorChecker.exceeds_threshold
        { scC7 with
            alert_threshold := 1 / 2,
            current_reading :=
              some { ts := 0, key := "T", raw := .float 100, scope_tag := none } }
        { ts := 1, key := "T", raw := .str "Error", scope_tag := none }
      = .ok true ∧
    SensorChecker.exceeds_threshold
        { scC7 with
            alert_threshold := 1 / 2,
            current_reading :=
              some { ts := 0, key := "T", raw := .str "N/A", scope_tag := none } }
        { ts := 1, key := "T", raw := .float 100, scope_tag := none }
      = .error "TypeError: cannot multiply sequence by non-int") :=
  ⟨⟨by norm_num, by decide, by decide, by decide, by decide, by decide⟩,
    C7_amended scC7 (1 / 2) 100 (by norm_num) 0 1 "T" "T" none none
      "Error" (by decide) (by decide) (by decide)
      "N/A" (by decide) (by decide)⟩

/-- Claim C8: `update` advances `next_check_time` by exactly
`poll_interval` from its own prior value — the function reads no clock at
all — and iterating it lands at initial + n * interval whatever the actual
poll times were, so sustained under-polling leaves `next_check_time` ever
further in the past. -/
theorem C8_next_check_drift (sc : SensorChecker) (r : SensorReading)
    (rs : List SensorReading) :
    (sc.update r).next_check_time = sc.next_check_time + sc.poll_interval ∧
    (rs.foldl SensorChecker.update sc).next_check_time
      = sc.next_check_time + (rs.length : Int) * sc.poll_interval := by
  refine ⟨rfl, ?_⟩
  induction rs generalizing sc with
  | nil => simp
  | cons a as ih =>
    rw [List.foldl_cons, ih]
    show sc.next_check_time + sc.poll_interval
        + (as.length : Int) * sc.poll_interval
      = sc.next_check_time + ((as.length + 1 : Nat) : Int) * sc.poll_interval
    push_cast
    ring

/-- Claim C9: `_record_poll_run` increments the success counter first and
then sets the running average to the duration on the first success and to
`(previous average + duration) / successCount` (timedelta-by-int floor
division on microseconds) on later ones; three successes of 10 s, 20 s and
30 s give exactly 15 s — the damped recurrence, not the 20 s arithmetic
mean. -/
theorem C9_running_average (smc : SensorModuleChecker) (s e : Int) :
    ((record_poll_run smc s e).poll_success_count
        = smc.poll_success_count + 1 ∧
     (record_poll_run smc s e).avg_poll_time
        = some (match smc.avg_poll_time with
            | none => e - s
            | some avg =>
              Int.fdiv (avg + (e - s)) ((smc.poll_success_count + 1 : Nat) : Int))) ∧
    (record_poll_run (record_poll_run (record_poll_run fresh_module 0 10000000)
        0 20000000) 0 30000000).avg_poll_time = some 15000000 ∧
    avg_poll_time_secs 15000000 = 15 := by
  refine ⟨⟨rfl, rfl⟩, by decide, by norm_num [avg_poll_time_secs]⟩

/-! Helper lemmas towards C10: before the self-report deadline, `check()`
only ever returns readings taken from the fetched snapshots. -/

/-- A reading found in the snapshot dict is one of the parsed rows. -/
theorem snapshot_get_mem {rows : List SensorReading} {k : String}
    {r : SensorReading} (h : snapshot_get rows k = some r) : r ∈ rows :=
  List.mem_reverse.mp (List.mem_of_find?_eq_some h)

/-- Right after `update r`, a pending alert can only be the just-installed
reading `r`. -/
theorem get_data_update_after_update {sc : SensorChecker} {r a : SensorReading}
    (h : (sc.update r).get_data_update = some a) : a = r := by
  obtain ⟨n, pi, t, nct, cur, prev⟩ := sc
  cases cur with
  | none => exact (Option.some.inj h).symm
  | some p =>
    by_cases he : py_eq r.value p.value = true
    · have hnone : (SensorChecker.update ⟨n, pi, t, nct, some p, prev⟩ r).get_data_update
          = none := by
        simp [SensorChecker.update, SensorChecker.get_data_update, he]
      rw [hnone] at h
      exact Option.noConfusion h
    · have hsome : (SensorChecker.update ⟨n, pi, t, nct, some p, prev⟩ r).get_data_update
          = some r := by
        simp [SensorChecker.update, SensorChecker.get_data_update, he]
      rw [hsome] at h
      exact (Option.some.inj h).symm

/-- An alert produced by the per-sensor sweep body is one of the snapshot
rows. -/
theorem sweep_sensor_alert_mem {now : Int} {rows : List SensorReading}
    {s s1 : SensorChecker} {a : SensorReading}
    (h : sweep_sensor now rows s = .ok (s1, some a)) : a ∈ rows := by
  unfold sweep_sensor at h
  cases hg : snapshot_get rows s.sensor_name with
  | none =>
    simp only [hg] at h
    simp at h
  | some r =>
    simp only [hg] at h
    have hfin : (s.update r).get_data_update = some a → a ∈ rows := by
      intro h2
      have h3 := get_data_update_after_update h2
      rw [h3]
      exact snapshot_get_mem hg
    cases hn : s.needs_check now with
    | true =>
      simp only [hn, if_true] at h
      simp only [Except.ok.injEq, Prod.mk.injEq] at h
      exact hfin h.2
    | false =>
      simp only [hn, Bool.false_eq_true, if_false] at h
      cases hex : s.exceeds_threshold r with
      | error e =>
        simp only [hex] at h
        exact Except.noConfusion h
      | ok b =>
        simp only [hex] at h
        cases b with
        | false => simp at h
        | true =>
          simp only [if_true, Except.ok.injEq, Prod.mk.injEq] at h
          exact hfin h.2

/-- Every alert returned by the sensor loop is one of the snapshot rows. -/
theorem sweep_sensors_alerts_mem {now : Int} {rows : List SensorReading} :
    ∀ {ss ss1 : List SensorChecker} {alerts : List SensorReading},
      sweep_sensors now rows ss = .ok (ss1, alerts) →
      ∀ a ∈ alerts, a ∈ rows := by
  intro ss
  induction ss with
  | nil =>
    intro ss1 alerts h a ha
    simp only [sweep_sensors, Except.ok.injEq, Prod.mk.injEq] at h
    rw [← h.2] at ha
    cases ha
  | cons s rest ih =>
    intro ss1 alerts h a ha
    unfold sweep_sensors at h
    cases hs : sweep_sensor now rows s with
    | error e =>
      simp only [hs] at h
      exact Except.noConfusion h
    | ok pr =>
      obtain ⟨s1, alert⟩ := pr
      simp only [hs] at h
      cases hr : sweep_sensors now rows rest with
      | error e =>
        simp only [hr] at h
        exact Except.noConfusion h
      | ok pr2 =>
        obtain ⟨rest1, alerts2⟩ := pr2
        simp only [hr] at h
        simp only [Except.ok.injEq, Prod.mk.injEq] at h
        rw [← h.2] at ha
        rcases List.mem_append.mp ha with hx | hx
        · cases alert with
          | none => cases hx
          | some b =>
            have hab : a = b := by simpa using hx
            subst hab
            exact sweep_sensor_alert_mem hs
        · exact ih hr a hx

/-- A `check()` whose clock has not passed the self-report deadline returns
only snapshot rows and leaves the deadline untouched. -/
theorem check_before_deadline {smc smc1 : SensorModuleChecker} {sw : Sweep}
    {out : List SensorReading}
    (hle : sw.now ≤ smc.next_self_report)
    (h : smc.check sw = .ok (out, smc1)) :
    (∀ r ∈ out, r ∈ sweep_rows sw) ∧
    smc1.next_self_report = smc.next_self_report := by
  unfold SensorModuleChecker.check at h
  cases hf : sw.fetch with
  | failure =>
    simp only [hf] at h
    simp only [Except.ok.injEq, Prod.mk.injEq] at h
    refine ⟨fun r hr => ?_, by rw [← h.2]⟩
    rw [← h.1] at hr
    cases hr
  | success rows =>
    simp only [hf, record_poll_run] at h
    cases hsw : sweep_sensors sw.now rows smc.sensors with
    | error e =>
      simp only [hsw] at h
      exact Except.noConfusion h
    | ok pr =>
      obtain ⟨sensors1, alerts⟩ := pr
      simp only [hsw] at h
      rw [if_neg (by exact not_lt.mpr hle)] at h
      simp only [Except.ok.injEq, Prod.mk.injEq] at h
      refine ⟨fun r hr => ?_, by rw [← h.2]⟩
      rw [← h.1] at hr
      simp only [sweep_rows, hf]
      exact sweep_sensors_alerts_mem hsw r hr

/-- Running several sweeps whose clocks all stay at or before the module's
self-report deadline yields only snapshot rows and never moves the
deadline. -/
theorem run_sweeps_before_deadline :
    ∀ {sweeps : List Sweep} {smc final : SensorModuleChecker}
      {out : List SensorReading},
      (∀ sw ∈ sweeps, sw.now ≤ smc.next_self_report) →
      run_sweeps smc sweeps = .ok (out, final) →
      (∀ r ∈ out, ∃ sw ∈ sweeps, r ∈ sweep_rows sw) ∧
      final.next_self_report = smc.next_self_report := by
  intro sweeps
  induction sweeps with
  | nil =>
    intro smc final out hle h
    simp only [run_sweeps, Except.ok.injEq, Prod.mk.injEq] at h
    refine ⟨fun r hr => ?_, by rw [← h.2]⟩
    rw [← h.1] at hr
    cases hr
  | cons sw rest ih =>
    intro smc final out hle h
    unfold run_sweeps at h
    cases hc : smc.check sw with
    | error e =>
      simp only [hc] at h
      exact Except.noConfusion h
    | ok pr =>
      obtain ⟨out1, smc1⟩ := pr
      simp only [hc] at h
      cases hr : run_sweeps smc1 rest with
      | error e =>
        simp only [hr] at h
        exact Except.noConfusion h
      | ok pr2 =>
        obtain ⟨outs, smc2⟩ := pr2
        simp only [hr] at h
        simp only [Except.ok.injEq, Prod.mk.injEq] at h
        have hd := check_before_deadline (hle sw (List.mem_cons_self sw rest)) hc
        have hle2 : ∀ s ∈ rest, s.now ≤ smc1.next_self_report := by
          intro s hs
          rw [hd.2]
          exact hle s (List.mem_cons_of_mem sw hs)
        have hrest := ih hle2 hr
        constructor
        · intro r hrr
          rw [← h.1] at hrr
          rcases List.mem_append.mp hrr with hx | hx
          · exact ⟨sw, List.mem_cons_self sw rest, hd.1 r hx⟩
          · obtain ⟨s, hs, hmem⟩ := hrest.1 r hx
            exact ⟨s, List.mem_cons_of_mem sw hs, hmem⟩
        · rw [← h.2, hrest.2, hd.2]

/-- Claim C10: construction sets `next_self_report` to the construction time
plus the self-report interval and zeroes the statistics (no average, both
counters 0); consequently, over any run of sweeps whose clock readings stay
within one self-report interval of construction, every reading `check()`
returns comes from a fetched snapshot — no synthetic self-report readings are
emitted, however many polls succeed or fail — and the deadline is still the
construction one afterwards. -/
theorem C10_no_selfreport_before_interval (dn : String)
    (ss : List SensorChecker) (t0 : Int) (sweeps : List Sweep)
    (out : List SensorReading) (final : SensorModuleChecker)
    (hok : run_sweeps (SensorModuleChecker.construct dn ss t0) sweeps
      = .ok (out, final))
    (hle : ∀ sw ∈ sweeps, sw.now ≤ t0 + config_self_report_interval) :
    (SensorModuleChecker.construct dn ss t0).next_self_report
        = t0 + config_self_report_interval ∧
    (SensorModuleChecker.construct dn ss t0).poll_success_count = 0 ∧
    (SensorModuleChecker.construct dn ss t0).poll_failure_count = 0 ∧
    (SensorModuleChecker.construct dn ss t0).avg_poll_time = none ∧
    (∀ r ∈ out, ∃ sw ∈ sweeps, r ∈ sweep_rows sw) ∧
    final.next_self_report = t0 + config_self_report_interval := by
  have hmain := run_sweeps_before_deadline (fun sw hsw => hle sw hsw) hok
  exact ⟨rfl, rfl, rfl, rfl, hmain.1, hmain.2⟩

/-- The module state after the single failed sweep of the C10 witness. -/
def smcC10w : SensorModuleChecker :=
  { display_name := "m"
    sensors := []
    self_report_interval := config_self_report_interval
    avg_poll_time := none
    poll_failure_count := 1
    poll_success_count := 0
    next_self_report := 0 + config_self_report_interval }

/-- Witness for C10: a module built at time 0 put through one failed sweep
at time 5, well before the 15-minute deadline. -/
theorem C10_witness :
    (run_sweeps (SensorModuleChecker.construct "m" [] 0)
        [{ fetch := .failure, start_t := 0, end_t := 0, now := 5 }]
      = .ok ([], smcC10w)) ∧
    ((SensorModuleChecker.construct "m" [] 0).next_self_report
        = 0 + config_self_report_interval ∧
     (SensorModuleChecker.construct "m" [] 0).poll_success_count = 0 ∧
     (SensorModuleChecker.construct "m" [] 0).poll_failure_count = 0 ∧
     (SensorModuleChecker.construct "m" [] 0).avg_poll_time = none ∧
     (∀ r ∈ ([] : List SensorReading),
        ∃ sw ∈ [({ fetch := .failure, start_t := 0, end_t := 0, now := 5 } : Sweep)],
          r ∈ sweep_rows sw) ∧
     smcC10w.next_self_report = 0 + config_self_report_interval) :=
  ⟨rfl,
    C10_no_selfreport_before_interval "m" [] 0
      [{ fetch := .failure, start_t := 0, end_t := 0, now := 5 }] [] smcC10w rfl
      (by
        intro sw hsw
        rw [List.mem_singleton] at hsw
        subst hsw
        decide)⟩

end Pybotz
